import Mathlib

/-!
Shallow embedding of the claude-code-action core:

* `commit_files` / `delete_files` — the atomic multi-file commit protocol of
  `src/mcp/github-file-ops-server.ts`, modelled as pure functions over an
  explicit GitHub-host state (`Host`).  Every network call the code issues is
  recorded in a `Request` trace; errors thrown by the code and caught by its
  surrounding `catch` block become `Except.error` results (the structured
  error payload with `isError: true`).
* `prepareRun` — the orchestration pipeline of `src/entrypoints/prepare.ts`,
  modelled over an oracle environment (`PrepareEnv`) giving the outcome of
  each external call the pipeline makes; the externally visible effects are
  recorded in a `PrepareAction` trace.
-/

/-- A git commit object as held by the remote host.  Mirrors the fields the
code reads (`tree.sha`, and for the host model the recorded parents, message
and author used to answer later requests). -/
structure GitCommit where
  tree : String
  parents : List String
  message : String
  authorName : String
  authorDate : String
deriving DecidableEq, Repr

/-- One entry of a tree-creation request.  `commit_files` sends
`{path, mode: "100644", type: "blob", content}`; `delete_files` sends
`{path, mode: "100644", type: "blob", sha: null}`.  `content`/`sha` model
presence or absence of the corresponding JSON field; `sha := some none`
is the explicit `sha: null` of the delete path. -/
structure TreeEntry where
  path : String
  mode : String
  type : String
  content : Option String
  sha : Option (Option String)
deriving DecidableEq, Repr

/-- A network request issued by the file-ops server, in the order the code
issues them (steps 1, 2, 4, 5, 6 of the commit protocol). -/
inductive Request where
  | getRef (owner repo branch : String)
  | getCommit (owner repo sha : String)
  | createTree (owner repo baseTree : String) (entries : List TreeEntry)
  | createCommit (owner repo message tree : String) (parents : List String)
  | updateRef (owner repo branch sha : String) (force : Bool)
deriving DecidableEq, Repr

/-- The protocol step a request belongs to, used to compare the shapes of the
write path and the delete path. -/
inductive RequestKind where
  | getRef | getCommit | createTree | createCommit | updateRef
deriving DecidableEq, Repr

def Request.kind : Request → RequestKind
  | .getRef _ _ _ => .getRef
  | .getCommit _ _ _ => .getCommit
  | .createTree _ _ _ _ => .createTree
  | .createCommit _ _ _ _ _ => .createCommit
  | .updateRef _ _ _ _ _ => .updateRef

/-- Modelled from the spec: the remote repository host (an external
collaborator, specified in the spec only by its interface).  `refs` is the
branch-name → commit-sha pointer map, `commits` the commit store, `trees`
maps a tree sha to its path → blob-content listing.  `freshCounter` generates
fresh object shas.  `authorName`/`authorDate` are the author identity the
host records on created commits. -/
structure Host where
  refs : String → Option String
  commits : String → Option GitCommit
  trees : String → Option (List (String × String))
  freshCounter : Nat
  authorName : String
  authorDate : String

/-- Modelled from the spec: ref lookup (spec 4.1 step 1); fails when the
branch does not exist. -/
def Host.getRef (h : Host) (branch : String) : Except (Nat × String) String :=
  match h.refs branch with
  | some sha => .ok sha
  | none => .error (404, "Not Found")

/-- Modelled from the spec: commit lookup (spec 4.1 step 2). -/
def Host.getCommit (h : Host) (sha : String) : Except (Nat × String) GitCommit :=
  match h.commits sha with
  | some c => .ok c
  | none => .error (404, "Not Found")

/-- Modelled from the spec: server-side merge of one tree entry into a
directory listing (spec 4.1 step 4): a content entry upserts its path, a
`sha: null` entry removes its path (a no-op when the path is absent). -/
def applyEntry (m : List (String × String)) (e : TreeEntry) : List (String × String) :=
  match e.content, e.sha with
  | some c, _ => (e.path, c) :: m.filter (fun p => p.1 ≠ e.path)
  | none, some none => m.filter (fun p => p.1 ≠ e.path)
  | none, _ => m

/-- Modelled from the spec: tree creation on top of a base tree (spec 4.1
step 4).  The host does not validate that a deleted path exists in the base
tree; it only requires the base tree itself to exist. -/
def Host.createTree (h : Host) (baseTree : String) (entries : List TreeEntry) :
    Except (Nat × String) (Host × String) :=
  match h.trees baseTree with
  | none => .error (404, "Base tree not found")
  | some m =>
    let merged := entries.foldl applyEntry m
    let sha := "tree-" ++ toString h.freshCounter
    .ok ({ h with
            trees := fun s => if s = sha then some merged else h.trees s,
            freshCounter := h.freshCounter + 1 }, sha)

/-- Modelled from the spec: commit creation (spec 4.1 step 5); records the
given tree, parents and message under a fresh sha. -/
def Host.createCommit (h : Host) (message tree : String) (parents : List String) :
    Host × String :=
  let sha := "commit-" ++ toString h.freshCounter
  let c : GitCommit :=
    { tree := tree, parents := parents, message := message,
      authorName := h.authorName, authorDate := h.authorDate }
  ({ h with
      commits := fun s => if s = sha then some c else h.commits s,
      freshCounter := h.freshCounter + 1 }, sha)

/-- Modelled from the spec (glossary): a non-forced ref update is accepted
only if the recorded parent of the new commit equals the current value of
the ref;
otherwise the host rejects it with a 422 and the ref is left unchanged. -/
def Host.updateRef (h : Host) (branch sha : String) (force : Bool) :
    Except (Nat × String) Host :=
  match h.refs branch, h.commits sha with
  | some current, some c =>
    if force || c.parents = [current] then
      .ok { h with refs := fun b => if b = branch then some sha else h.refs b }
    else
      .error (422, "Update is not a fast forward")
  | _, _ => .error (422, "Reference update failed")

/-- The environment-derived configuration of the file-ops server:
`REPO_OWNER`, `REPO_NAME`, `BRANCH_NAME`, `REPO_DIR`, `GITHUB_TOKEN`
(checked per call, may be absent) and `process.cwd()`. -/
structure OpsEnv where
  repoOwner : String
  repoName : String
  branchName : String
  repoDir : String
  githubToken : Option String
  cwd : String

/-- The success payload `commit_files` / `delete_files` returns: the
simplified projection {commit sha, message, author, date, affected paths,
tree sha} built from the host responses. -/
structure CommitPayload where
  commitSha : String
  commitMessage : String
  author : String
  date : String
  filePaths : List String
  treeSha : String
deriving DecidableEq, Repr

/-- Outcome of one tool invocation: the returned payload or the structured
error payload (the catch-block response with `isError: true`), together with
the trace of network requests issued and the resulting host state. -/
structure OpsResult where
  result : Except String CommitPayload
  trace : List Request
  host : Host

/-- The `startsWith` test of the source, stated on the character list so
that concrete instances compute. -/
def strStartsWith (s p : String) : Bool := p.data.isPrefixOf s.data

/-- Path processing of `commit_files`: a path starting with "/" has its
first character removed (`filePath.slice(1)`). -/
def commitProcessPath (filePath : String) : String :=
  if strStartsWith filePath "/" then filePath.drop 1 else filePath

/-- Path processing of `delete_files`: an absolute path is accepted only when
it starts with the current working directory, in which case the cwd prefix
and the following separator are removed (`filePath.slice(cwd.length + 1)`);
otherwise the whole call throws. -/
def deleteProcessPath (cwd filePath : String) : Except String String :=
  if strStartsWith filePath "/" then
    if strStartsWith filePath cwd then
      .ok (filePath.drop (cwd.length + 1))
    else
      .error ("Path " ++ filePath ++
        " must be relative to repository root or within current working directory")
  else
    .ok filePath

/-- Processing of the whole path list of `delete_files`, propagating the
first thrown error. -/
def processDeletePaths (cwd : String) : List String → Except String (List String)
  | [] => .ok []
  | p :: rest =>
    match deleteProcessPath cwd p with
    | .error e => .error e
    | .ok q =>
      match processDeletePaths cwd rest with
      | .error e => .error e
      | .ok qs => .ok (q :: qs)

/-- Joining of the repository directory onto a relative path, as used for
local reads. -/
def pathJoin (a b : String) : String := a ++ "/" ++ b

/-- The local read target of one file in `commit_files` step 3: an (already
processed) path still starting with "/" is read as-is, otherwise it is
joined onto `REPO_DIR`. -/
def fullPathOf (env : OpsEnv) (filePath : String) : String :=
  if strStartsWith filePath "/" then filePath else pathJoin env.repoDir filePath

/-- Step 3 of `commit_files`: read every processed file from the local
working storage `fs` and build the blob tree entries; a missing file rejects
the whole batch with the read error. -/
def readAll (env : OpsEnv) (fs : String → Option String) :
    List String → Except String (List TreeEntry)
  | [] => .ok []
  | filePath :: rest =>
    match fs (fullPathOf env filePath) with
    | none => .error ("ENOENT: no such file or directory, open " ++ fullPathOf env filePath)
    | some content =>
      match readAll env fs rest with
      | .error e => .error e
      | .ok entries =>
        .ok ({ path := filePath, mode := "100644", type := "blob",
               content := some content, sha := none } :: entries)

/-- The tree entry `delete_files` builds for one processed path:
`{path, mode: "100644", type: "blob", sha: null}`. -/
def deleteEntry (p : String) : TreeEntry :=
  { path := p, mode := "100644", type := "blob", content := none, sha := some none }

/-- Models the external concurrent writer: an optional ref update applied to
the branch between the initial ref read (step 1) and the final ref update
(step 6).  `none` means no interference. -/
def applyExt (host : Host) (branch : String) : Option String → Host
  | none => host
  | some s => { host with refs := fun b => if b = branch then some s else host.refs b }

/-- The `commit_files` tool of `src/mcp/github-file-ops-server.ts`:
token check, path processing, then the six-step protocol (ref read, commit
read, local reads, tree creation, commit creation, non-forced ref update),
every thrown error surfacing as the structured error payload. -/
def commit_files (env : OpsEnv) (fs : String → Option String) (host0 : Host)
    (ext : Option String) (files : List String) (message : String) : OpsResult :=
  match env.githubToken with
  | none => ⟨.error "GITHUB_TOKEN environment variable is required", [], host0⟩
  | some _ =>
    let processedFiles := files.map commitProcessPath
    let req1 := Request.getRef env.repoOwner env.repoName env.branchName
    match host0.getRef env.branchName with
    | .error (status, _) =>
      ⟨.error ("Failed to get branch reference: " ++ toString status), [req1], host0⟩
    | .ok baseSha =>
      let req2 := Request.getCommit env.repoOwner env.repoName baseSha
      match host0.getCommit baseSha with
      | .error (status, _) =>
        ⟨.error ("Failed to get base commit: " ++ toString status), [req1, req2], host0⟩
      | .ok commitData =>
        let baseTreeSha := commitData.tree
        let host1 := applyExt host0 env.branchName ext
        match readAll env fs processedFiles with
        | .error e => ⟨.error e, [req1, req2], host1⟩
        | .ok treeEntries =>
          let req3 := Request.createTree env.repoOwner env.repoName baseTreeSha treeEntries
          match host1.createTree baseTreeSha treeEntries with
          | .error (status, errorText) =>
            ⟨.error ("Failed to create tree: " ++ toString status ++ " - " ++ errorText),
             [req1, req2, req3], host1⟩
          | .ok (host2, treeSha) =>
            let req4 := Request.createCommit env.repoOwner env.repoName message treeSha [baseSha]
            let created := host2.createCommit message treeSha [baseSha]
            let host3 := created.1
            let newSha := created.2
            let req5 := Request.updateRef env.repoOwner env.repoName env.branchName newSha false
            match host3.updateRef env.branchName newSha false with
            | .error (status, errorText) =>
              ⟨.error ("Failed to update reference: " ++ toString status ++ " - " ++ errorText),
               [req1, req2, req3, req4, req5], host3⟩
            | .ok host4 =>
              ⟨.ok { commitSha := newSha, commitMessage := message,
                     author := host4.authorName, date := host4.authorDate,
                     filePaths := processedFiles, treeSha := treeSha },
               [req1, req2, req3, req4, req5], host4⟩

/-- The `delete_files` tool of `src/mcp/github-file-ops-server.ts`: token
check, cwd-based path processing (which can reject the whole call before any
network request), then the same protocol as `commit_files` with the local
read step omitted and `sha: null` tree entries.  It takes no local
filesystem at all. -/
def delete_files (env : OpsEnv) (host0 : Host) (ext : Option String)
    (paths : List String) (message : String) : OpsResult :=
  match env.githubToken with
  | none => ⟨.error "GITHUB_TOKEN environment variable is required", [], host0⟩
  | some _ =>
    match processDeletePaths env.cwd paths with
    | .error e => ⟨.error e, [], host0⟩
    | .ok processedPaths =>
      let req1 := Request.getRef env.repoOwner env.repoName env.branchName
      match host0.getRef env.branchName with
      | .error (status, _) =>
        ⟨.error ("Failed to get branch reference: " ++ toString status), [req1], host0⟩
      | .ok baseSha =>
        let req2 := Request.getCommit env.repoOwner env.repoName baseSha
        match host0.getCommit baseSha with
        | .error (status, _) =>
          ⟨.error ("Failed to get base commit: " ++ toString status), [req1, req2], host0⟩
        | .ok commitData =>
          let baseTreeSha := commitData.tree
          let host1 := applyExt host0 env.branchName ext
          let treeEntries := processedPaths.map deleteEntry
          let req3 := Request.createTree env.repoOwner env.repoName baseTreeSha treeEntries
          match host1.createTree baseTreeSha treeEntries with
          | .error (status, errorText) =>
            ⟨.error ("Failed to create tree: " ++ toString status ++ " - " ++ errorText),
             [req1, req2, req3], host1⟩
          | .ok (host2, treeSha) =>
            let req4 := Request.createCommit env.repoOwner env.repoName message treeSha [baseSha]
            let created := host2.createCommit message treeSha [baseSha]
            let host3 := created.1
            let newSha := created.2
            let req5 := Request.updateRef env.repoOwner env.repoName env.branchName newSha false
            match host3.updateRef env.branchName newSha false with
            | .error (status, errorText) =>
              ⟨.error ("Failed to update reference: " ++ toString status ++ " - " ++ errorText),
               [req1, req2, req3, req4, req5], host3⟩
            | .ok host4 =>
              ⟨.ok { commitSha := newSha, commitMessage := message,
                     author := host4.authorName, date := host4.authorDate,
                     filePaths := processedPaths, treeSha := treeSha },
               [req1, req2, req3, req4, req5], host4⟩

/-- The repository slug of the parsed GitHub context. -/
structure Repository where
  owner : String
  repo : String

/-- The parsed GitHub context of `prepare.ts` (the fields the pipeline
reads). -/
structure GitHubContext where
  repository : Repository
  entityNumber : Nat
  isPR : Bool

/-- The branch info produced by `setupBranch`: `claudeBranch` is set exactly
when a new working branch was created for an issue. -/
structure BranchInfo where
  defaultBranch : String
  currentBranch : String
  claudeBranch : Option String

/-- An open pull request returned by the `pulls.list` lookup (only its
number is read). -/
structure PullRequest where
  number : Nat

/-- Oracle environment for `prepare.ts`: the outcome of every external call
the pipeline makes.  The orchestration logic under test is `prepareRun`
itself; these callees live outside the three source files and are abstracted
as arbitrary outcomes (`Except.error e` models the callee throwing). -/
structure PrepareEnv where
  setupGitHubToken : Except String String
  parseGitHubContext : Except String GitHubContext
  checkWritePermissions : Except String Bool
  checkTriggerAction : Except String Bool
  checkHumanActor : Except String Unit
  createInitialComment : Except String Nat
  fetchGitHubData : Except String Unit
  setupBranch : Except String BranchInfo
  pullsList : Except String (List PullRequest)
  createPRComment : Nat → Except String Nat
  updateTrackingComment : Except String Unit
  createPrompt : Except String Unit
  prepareMcpConfig : Except String String

/-- Externally visible effects of one pipeline run, in order. -/
inductive PrepareAction where
  | log (msg : String)
  | postedInitialComment (id : Nat)
  | listedPullRequests (head : String)
  | createdPRComment (prNumber : Nat) (id : Nat)
  | exportedVariable (key value : String)
  | editedComment (id : Nat) (branch : String)
  | createdPrompt (commentId : Nat)
  | setOutput (key value : String)
deriving DecidableEq, Repr

/-- Termination mode of the pipeline: `success` is a normal return of `run`;
`failure` is the catch block (`core.setFailed` followed by
`process.exit(1)`, a non-zero process exit). -/
inductive RunOutcome where
  | success
  | failure (msg : String)
deriving DecidableEq, Repr

/-- The failure annotation of the catch block in `prepare.ts`. -/
def failMsg (e : String) : String := "Prepare step failed with error: " ++ e

/-- Result of one pipeline run: outcome, action trace, and the final comment
id handed to prompt construction (absent when the run never reached step 9). -/
structure PrepareResult where
  outcome : RunOutcome
  actions : List PrepareAction
  finalCommentId : Option Nat
deriving DecidableEq, Repr

/-- Step 9 of `prepare.ts`: the tracking-comment redirect.  Runs only for an
issue event that created a new branch; the inner try/catch wraps the PR
lookup, the PR-comment creation and the variable export, so a throw from any
of them is caught, logged and ignored (falling back to the original comment
id).  Returns the final comment id and the redirect-step actions. -/
def redirectStep (env : PrepareEnv) (context : GitHubContext)
    (branchInfo : BranchInfo) (commentId : Nat) : Nat × List PrepareAction :=
  match branchInfo.claudeBranch with
  | none => (commentId, [])
  | some claudeBranch =>
    if context.isPR then (commentId, [])
    else
      let head := context.repository.owner ++ ":" ++ claudeBranch
      match env.pullsList with
      | .error _ =>
        (commentId, [.listedPullRequests head,
          .log ("No PR found for branch " ++ claudeBranch ++ ", using original comment")])
      | .ok prs =>
        match prs with
        | [] => (commentId, [.listedPullRequests head])
        | pr :: _ =>
          match env.createPRComment pr.number with
          | .error _ =>
            (commentId, [.listedPullRequests head,
              .log ("No PR found for branch " ++ claudeBranch ++ ", using original comment")])
          | .ok newId =>
            (newId, [.listedPullRequests head,
              .createdPRComment pr.number newId,
              .exportedVariable "CLAUDE_COMMENT_ID" (toString newId)])

/-- Step 10 of `prepare.ts`: edit the original comment with the branch link,
only when a new branch exists and no new PR comment was created.  Returns
`none` when the edit callee throws (fatal), otherwise the actions taken. -/
def updateStep (env : PrepareEnv) (branchInfo : BranchInfo)
    (commentId finalCommentId : Nat) : Except String (List PrepareAction) :=
  match branchInfo.claudeBranch with
  | none => .ok []
  | some claudeBranch =>
    if finalCommentId = commentId then
      match env.updateTrackingComment with
      | .error e => .error e
      | .ok _ => .ok [.editedComment commentId claudeBranch]
    else .ok []

/-- The `run` function of `src/entrypoints/prepare.ts`: the ordered gate
sequence (token, context, write permission, trigger, human actor), the
initial tracking comment, data fetch, branch setup, the redirect and
branch-link steps, prompt creation and MCP configuration.  Any uncaught
throw lands in the catch block: `failure` outcome (non-zero exit). -/
def prepareRun (env : PrepareEnv) : PrepareResult :=
  match env.setupGitHubToken with
  | .error e => ⟨.failure (failMsg e), [], none⟩
  | .ok _ =>
  match env.parseGitHubContext with
  | .error e => ⟨.failure (failMsg e), [], none⟩
  | .ok context =>
  match env.checkWritePermissions with
  | .error e => ⟨.failure (failMsg e), [], none⟩
  | .ok hasWritePermissions =>
  if !hasWritePermissions then
    ⟨.failure (failMsg "Actor does not have write permissions to the repository"), [], none⟩
  else
  match env.checkTriggerAction with
  | .error e => ⟨.failure (failMsg e), [], none⟩
  | .ok containsTrigger =>
  if !containsTrigger then
    ⟨.success, [.log "No trigger found, skipping remaining steps"], none⟩
  else
  match env.checkHumanActor with
  | .error e => ⟨.failure (failMsg e), [], none⟩
  | .ok _ =>
  match env.createInitialComment with
  | .error e => ⟨.failure (failMsg e), [], none⟩
  | .ok commentId =>
  match env.fetchGitHubData with
  | .error e => ⟨.failure (failMsg e), [.postedInitialComment commentId], none⟩
  | .ok _ =>
  match env.setupBranch with
  | .error e => ⟨.failure (failMsg e), [.postedInitialComment commentId], none⟩
  | .ok branchInfo =>
  let redirected := redirectStep env context branchInfo commentId
  let finalCommentId := redirected.1
  let baseActions := .postedInitialComment commentId :: redirected.2
  match updateStep env branchInfo commentId finalCommentId with
  | .error e => ⟨.failure (failMsg e), baseActions, none⟩
  | .ok editActions =>
  match env.createPrompt with
  | .error e => ⟨.failure (failMsg e), baseActions ++ editActions, none⟩
  | .ok _ =>
  match env.prepareMcpConfig with
  | .error e =>
    ⟨.failure (failMsg e), baseActions ++ editActions ++ [.createdPrompt finalCommentId], none⟩
  | .ok mcpConfig =>
    ⟨.success,
     baseActions ++ editActions ++
       [.createdPrompt finalCommentId, .setOutput "mcp_config" mcpConfig],
     some finalCommentId⟩

/-! Helper lemmas shared by several claim theorems. -/

/-- Every ref-update request `commit_files` ever issues is non-forced. -/
theorem commit_files_force_false (env : OpsEnv) (fs : String → Option String)
    (host : Host) (ext : Option String) (files : List String) (message : String) :
    ∀ o r b s f, Request.updateRef o r b s f ∈ (commit_files env fs host ext files message).trace →
      f = false := by
  intro o r b s f hmem
  unfold commit_files at hmem
  simp only [] at hmem
  repeat' split at hmem
  all_goals simp_all

/-- Every ref-update request `delete_files` ever issues is non-forced. -/
theorem delete_files_force_false (env : OpsEnv) (host : Host) (ext : Option String)
    (paths : List String) (message : String) :
    ∀ o r b s f, Request.updateRef o r b s f ∈ (delete_files env host ext paths message).trace →
      f = false := by
  intro o r b s f hmem
  unfold delete_files at hmem
  simp only [] at hmem
  repeat' split at hmem
  all_goals simp_all

/-- On any successful `commit_files` run, the reported affected paths are the
requested files after path processing. -/
theorem commit_files_paths_processed (env : OpsEnv) (fs : String → Option String)
    (host : Host) (ext : Option String) (files : List String) (message : String) :
    ∀ pay, (commit_files env fs host ext files message).result = .ok pay →
      pay.filePaths = files.map commitProcessPath := by
  intro pay hres
  unfold commit_files at hres
  simp only [] at hres
  repeat' split at hres
  all_goals (try cases hres)
  all_goals simp_all

/-- A delete request containing a path that is absolute but outside the
current working directory makes the whole path-processing step throw. -/
theorem processDeletePaths_error_of_outside (cwd : String) :
    ∀ paths p, p ∈ paths → strStartsWith p "/" = true → strStartsWith p cwd = false →
      ∃ e, processDeletePaths cwd paths = .error e := by
  intro paths
  induction paths with
  | nil => intro p h; exact absurd h (List.not_mem_nil p)
  | cons q rest ih =>
    intro p hmem h1 h2
    rcases List.mem_cons.mp hmem with rfl | hr
    · refine ⟨"Path " ++ p ++
        " must be relative to repository root or within current working directory", ?_⟩
      simp [processDeletePaths, deleteProcessPath, h1, h2]
    · obtain ⟨e, he⟩ := ih p hr h1 h2
      cases hq : deleteProcessPath cwd q with
      | error e2 => exact ⟨e2, by simp [processDeletePaths, hq]⟩
      | ok r => exact ⟨e, by simp [processDeletePaths, hq, he]⟩

/-! Claim theorems. -/

/-- Claim C10: a `commit_files` invocation with an empty files list is not
rejected: it executes the whole protocol, submits a tree request with zero
entries on top of the base tree, creates a commit whose parent is the prior
tip, advances the branch ref to that commit, and returns a success payload
with an empty affected-paths list. -/
theorem commit_files_empty_batch (env : OpsEnv) (fs : String → Option String)
    (host : Host) (message : String) (tok baseSha : String) (c : GitCommit)
    (m : List (String × String))
    (htok : env.githubToken = some tok)
    (href : host.refs env.branchName = some baseSha)
    (hcom : host.commits baseSha = some c)
    (htree : host.trees c.tree = some m) :
    ∃ treeSha newSha,
      (commit_files env fs host none [] message).trace =
        [Request.getRef env.repoOwner env.repoName env.branchName,
         Request.getCommit env.repoOwner env.repoName baseSha,
         Request.createTree env.repoOwner env.repoName c.tree [],
         Request.createCommit env.repoOwner env.repoName message treeSha [baseSha],
         Request.updateRef env.repoOwner env.repoName env.branchName newSha false] ∧
      (commit_files env fs host none [] message).result =
        .ok { commitSha := newSha, commitMessage := message,
              author := host.authorName, date := host.authorDate,
              filePaths := [], treeSha := treeSha } ∧
      (commit_files env fs host none [] message).host.refs env.branchName = some newSha ∧
      (commit_files env fs host none [] message).host.commits newSha =
        some { tree := treeSha, parents := [baseSha], message := message,
               authorName := host.authorName, authorDate := host.authorDate } := by
  refine ⟨"tree-" ++ toString host.freshCounter,
          "commit-" ++ toString (host.freshCounter + 1), ?_, ?_, ?_, ?_⟩ <;>
    simp [commit_files, Host.getRef, Host.getCommit, Host.createTree, Host.createCommit,
          Host.updateRef, applyExt, readAll, htok, href, hcom, htree]

/-- Concrete local filesystem used by witnesses: only `/repo/a.txt` exists. -/
def fsDemo : String → Option String :=
  fun p => if p = "/repo/a.txt" then some "hello" else none

/-- Concrete host used by witnesses: branch `main` at commit `base` whose
tree `t0` holds `keep.txt`. -/
def hostDemo : Host :=
  { refs := fun b => if b = "main" then some "base" else none,
    commits := fun s =>
      if s = "base" then
        some { tree := "t0", parents := [], message := "init",
               authorName := "octocat", authorDate := "2024-01-01" }
      else none,
    trees := fun s => if s = "t0" then some [("keep.txt", "k")] else none,
    freshCounter := 0,
    authorName := "octocat",
    authorDate := "2024-01-01" }

/-- Concrete server environment used by witnesses. -/
def envDemo : OpsEnv :=
  { repoOwner := "o", repoName := "r", branchName := "main", repoDir := "/repo",
    githubToken := some "tok", cwd := "/repo" }

/-- Witness for C10 at a concrete environment and host. -/
theorem commit_files_empty_batch_witness :
    ∃ treeSha newSha,
      (commit_files envDemo fsDemo hostDemo none [] "empty commit").trace =
        [Request.getRef envDemo.repoOwner envDemo.repoName envDemo.branchName,
         Request.getCommit envDemo.repoOwner envDemo.repoName "base",
         Request.createTree envDemo.repoOwner envDemo.repoName "t0" [],
         Request.createCommit envDemo.repoOwner envDemo.repoName "empty commit" treeSha ["base"],
         Request.updateRef envDemo.repoOwner envDemo.repoName envDemo.branchName newSha false] ∧
      (commit_files envDemo fsDemo hostDemo none [] "empty commit").result =
        .ok { commitSha := newSha, commitMessage := "empty commit",
              author := hostDemo.authorName, date := hostDemo.authorDate,
              filePaths := [], treeSha := treeSha } ∧
      (commit_files envDemo fsDemo hostDemo none [] "empty commit").host.refs envDemo.branchName =
        some newSha ∧
      (commit_files envDemo fsDemo hostDemo none [] "empty commit").host.commits newSha =
        some { tree := treeSha, parents := ["base"], message := "empty commit",
               authorName := hostDemo.authorName, authorDate := hostDemo.authorDate } :=
  commit_files_empty_batch envDemo fsDemo hostDemo "empty commit" "tok" "base"
    { tree := "t0", parents := [], message := "init",
      authorName := "octocat", authorDate := "2024-01-01" }
    [("keep.txt", "k")] rfl rfl rfl rfl

/-- Claim C2: if reading any requested local file fails, the whole
`commit_files` batch fails: the result is the read error, only the two read
requests (ref and commit lookup) were issued — no tree creation, commit
creation or ref update — and the host state, in particular the branch ref,
is unchanged. -/
theorem commit_files_aborts_on_missing_local_file (env : OpsEnv)
    (fs : String → Option String) (host : Host) (files : List String)
    (message tok baseSha e : String) (c : GitCommit)
    (htok : env.githubToken = some tok)
    (href : host.refs env.branchName = some baseSha)
    (hcom : host.commits baseSha = some c)
    (hread : readAll env fs (files.map commitProcessPath) = .error e) :
    (commit_files env fs host none files message).result = .error e ∧
    (commit_files env fs host none files message).trace =
      [Request.getRef env.repoOwner env.repoName env.branchName,
       Request.getCommit env.repoOwner env.repoName baseSha] ∧
    (∀ o r bt es, Request.createTree o r bt es ∉
      (commit_files env fs host none files message).trace) ∧
    (∀ o r msg t ps, Request.createCommit o r msg t ps ∉
      (commit_files env fs host none files message).trace) ∧
    (∀ o r b s f, Request.updateRef o r b s f ∉
      (commit_files env fs host none files message).trace) ∧
    (commit_files env fs host none files message).host = host := by
  refine ⟨?_, ?_, ?_, ?_, ?_, ?_⟩ <;>
    simp [commit_files, Host.getRef, Host.getCommit, applyExt, htok, href, hcom, hread]

/-- Witness for C2: committing a file missing from the demo filesystem. -/
theorem commit_files_aborts_on_missing_local_file_witness :
    (commit_files envDemo fsDemo hostDemo none ["missing.txt"] "m").result =
      .error "ENOENT: no such file or directory, open /repo/missing.txt" ∧
    (commit_files envDemo fsDemo hostDemo none ["missing.txt"] "m").trace =
      [Request.getRef envDemo.repoOwner envDemo.repoName envDemo.branchName,
       Request.getCommit envDemo.repoOwner envDemo.repoName "base"] ∧
    (∀ o r bt es, Request.createTree o r bt es ∉
      (commit_files envDemo fsDemo hostDemo none ["missing.txt"] "m").trace) ∧
    (∀ o r msg t ps, Request.createCommit o r msg t ps ∉
      (commit_files envDemo fsDemo hostDemo none ["missing.txt"] "m").trace) ∧
    (∀ o r b s f, Request.updateRef o r b s f ∉
      (commit_files envDemo fsDemo hostDemo none ["missing.txt"] "m").trace) ∧
    (commit_files envDemo fsDemo hostDemo none ["missing.txt"] "m").host = hostDemo :=
  commit_files_aborts_on_missing_local_file envDemo fsDemo hostDemo ["missing.txt"]
    "m" "tok" "base" "ENOENT: no such file or directory, open /repo/missing.txt"
    { tree := "t0", parents := [], message := "init",
      authorName := "octocat", authorDate := "2024-01-01" }
    rfl rfl rfl rfl

/-- Claim C9: a `delete_files` call containing a path that is absolute but
outside the current working directory returns the structured error payload
before any network request: the request trace is empty and the host state is
untouched. -/
theorem delete_files_rejects_path_outside_cwd (env : OpsEnv) (host : Host)
    (ext : Option String) (paths : List String) (message p : String)
    (hmem : p ∈ paths) (habs : strStartsWith p "/" = true)
    (hout : strStartsWith p env.cwd = false) :
    (∃ e, (delete_files env host ext paths message).result = .error e) ∧
    (delete_files env host ext paths message).trace = [] ∧
    (delete_files env host ext paths message).host = host := by
  obtain ⟨e, he⟩ := processDeletePaths_error_of_outside env.cwd paths p hmem habs hout
  cases htok : env.githubToken with
  | none => exact ⟨⟨"GITHUB_TOKEN environment variable is required",
      by simp [delete_files, htok]⟩, by simp [delete_files, htok],
      by simp [delete_files, htok]⟩
  | some t => exact ⟨⟨e, by simp [delete_files, htok, he]⟩, by simp [delete_files, htok, he],
      by simp [delete_files, htok, he]⟩

/-- Witness for C9: deleting `/etc/passwd` under cwd `/repo`. -/
theorem delete_files_rejects_path_outside_cwd_witness :
    (∃ e, (delete_files envDemo hostDemo none ["/etc/passwd"] "m").result = .error e) ∧
    (delete_files envDemo hostDemo none ["/etc/passwd"] "m").trace = [] ∧
    (delete_files envDemo hostDemo none ["/etc/passwd"] "m").host = hostDemo :=
  delete_files_rejects_path_outside_cwd envDemo hostDemo none ["/etc/passwd"] "m"
    "/etc/passwd" (by simp) (by decide) (by decide)

/-- Claim C1: both `commit_files` and `delete_files` request the final
branch-ref update with `force: false`, and when the host rejects the update
because the ref moved off `baseSha` (modelled by the external write
`extSha`), the operation returns an error carrying the rejection status 422
and its response text, issues no request after the ref update, and leaves
the ref pointing at the external change. -/
theorem ref_update_non_forced_and_conflict_preserved (env : OpsEnv)
    (fs : String → Option String) (host : Host) (files paths : List String)
    (message tok baseSha extSha : String) (c : GitCommit)
    (m : List (String × String)) (es : List TreeEntry) (qs : List String)
    (htok : env.githubToken = some tok)
    (href : host.refs env.branchName = some baseSha)
    (hcom : host.commits baseSha = some c)
    (htree : host.trees c.tree = some m)
    (hread : readAll env fs (files.map commitProcessPath) = .ok es)
    (hproc : processDeletePaths env.cwd paths = .ok qs)
    (hne : baseSha ≠ extSha) :
    (∀ env2 fs2 host2 ext2 files2 msg2 o r b s f,
        Request.updateRef o r b s f ∈ (commit_files env2 fs2 host2 ext2 files2 msg2).trace →
        f = false) ∧
    (∀ env2 host2 ext2 paths2 msg2 o r b s f,
        Request.updateRef o r b s f ∈ (delete_files env2 host2 ext2 paths2 msg2).trace →
        f = false) ∧
    (commit_files env fs host (some extSha) files message).result =
      .error ("Failed to update reference: " ++ toString (422 : Nat) ++ " - " ++
        "Update is not a fast forward") ∧
    (commit_files env fs host (some extSha) files message).host.refs env.branchName =
      some extSha ∧
    (commit_files env fs host (some extSha) files message).trace =
      [Request.getRef env.repoOwner env.repoName env.branchName,
       Request.getCommit env.repoOwner env.repoName baseSha,
       Request.createTree env.repoOwner env.repoName c.tree es,
       Request.createCommit env.repoOwner env.repoName message
         ("tree-" ++ toString host.freshCounter) [baseSha],
       Request.updateRef env.repoOwner env.repoName env.branchName
         ("commit-" ++ toString (host.freshCounter + 1)) false] ∧
    (delete_files env host (some extSha) paths message).result =
      .error ("Failed to update reference: " ++ toString (422 : Nat) ++ " - " ++
        "Update is not a fast forward") ∧
    (delete_files env host (some extSha) paths message).host.refs env.branchName =
      some extSha ∧
    (delete_files env host (some extSha) paths message).trace =
      [Request.getRef env.repoOwner env.repoName env.branchName,
       Request.getCommit env.repoOwner env.repoName baseSha,
       Request.createTree env.repoOwner env.repoName c.tree (qs.map deleteEntry),
       Request.createCommit env.repoOwner env.repoName message
         ("tree-" ++ toString host.freshCounter) [baseSha],
       Request.updateRef env.repoOwner env.repoName env.branchName
         ("commit-" ++ toString (host.freshCounter + 1)) false] := by
  refine ⟨commit_files_force_false, delete_files_force_false, ?_, ?_, ?_, ?_, ?_, ?_⟩ <;>
    simp [commit_files, delete_files, Host.getRef, Host.getCommit, Host.createTree,
      Host.createCommit, Host.updateRef, applyExt, htok, href, hcom, htree, hread, hproc, hne]

/-- Concrete host at a moved ref: like `hostDemo` but the branch tip was
moved to `external` by a concurrent writer between read and update. -/
theorem ref_update_non_forced_and_conflict_preserved_witness :
    (commit_files envDemo fsDemo hostDemo (some "external") ["a.txt"] "w").result =
      .error ("Failed to update reference: " ++ toString (422 : Nat) ++ " - " ++
        "Update is not a fast forward") ∧
    (commit_files envDemo fsDemo hostDemo (some "external") ["a.txt"] "w").host.refs
      envDemo.branchName = some "external" ∧
    (delete_files envDemo hostDemo (some "external") ["keep.txt"] "w").result =
      .error ("Failed to update reference: " ++ toString (422 : Nat) ++ " - " ++
        "Update is not a fast forward") ∧
    (delete_files envDemo hostDemo (some "external") ["keep.txt"] "w").host.refs
      envDemo.branchName = some "external" := by
  have h := ref_update_non_forced_and_conflict_preserved envDemo fsDemo hostDemo
    ["a.txt"] ["keep.txt"] "w" "tok" "base" "external"
    { tree := "t0", parents := [], message := "init",
      authorName := "octocat", authorDate := "2024-01-01" }
    [("keep.txt", "k")]
    [{ path := "a.txt", mode := "100644", type := "blob",
       content := some "hello", sha := none }]
    ["keep.txt"] rfl rfl rfl rfl rfl rfl (by decide)
  exact ⟨h.2.2.1, h.2.2.2.1, h.2.2.2.2.2.1, h.2.2.2.2.2.2.1⟩

/-- Claim C8: `delete_files` runs the same commit protocol as `commit_files`
(the same five network requests in the same order) but performs no local
file reads: its tree entries are built directly from the processed paths
with `sha: null` and no content, and it succeeds without any hypothesis
that a deleted path is present in the base tree — deleting an absent path
still produces a commit.  (`delete_files` takes no local filesystem
argument at all, which is the omitted step 3.) -/
theorem delete_files_mirrors_write_protocol (env : OpsEnv)
    (fs : String → Option String) (host : Host) (files paths : List String)
    (message tok baseSha : String) (c : GitCommit)
    (m : List (String × String)) (es : List TreeEntry) (qs : List String)
    (htok : env.githubToken = some tok)
    (href : host.refs env.branchName = some baseSha)
    (hcom : host.commits baseSha = some c)
    (htree : host.trees c.tree = some m)
    (hread : readAll env fs (files.map commitProcessPath) = .ok es)
    (hproc : processDeletePaths env.cwd paths = .ok qs) :
    (delete_files env host none paths message).trace =
      [Request.getRef env.repoOwner env.repoName env.branchName,
       Request.getCommit env.repoOwner env.repoName baseSha,
       Request.createTree env.repoOwner env.repoName c.tree (qs.map deleteEntry),
       Request.createCommit env.repoOwner env.repoName message
         ("tree-" ++ toString host.freshCounter) [baseSha],
       Request.updateRef env.repoOwner env.repoName env.branchName
         ("commit-" ++ toString (host.freshCounter + 1)) false] ∧
    (∀ e ∈ qs.map deleteEntry, e.content = none ∧ e.sha = some none) ∧
    (delete_files env host none paths message).trace.map Request.kind =
      (commit_files env fs host none files message).trace.map Request.kind ∧
    (delete_files env host none paths message).result =
      .ok { commitSha := "commit-" ++ toString (host.freshCounter + 1),
            commitMessage := message,
            author := host.authorName, date := host.authorDate,
            filePaths := qs,
            treeSha := "tree-" ++ toString host.freshCounter } ∧
    (∀ p, strStartsWith p "/" = false → p ∉ m.map Prod.fst →
      ∃ pay, (delete_files env host none [p] message).result = .ok pay ∧
        pay.filePaths = [p]) := by
  refine ⟨?_, ?_, ?_, ?_, ?_⟩
  · simp [delete_files, Host.getRef, Host.getCommit, Host.createTree,
      Host.createCommit, Host.updateRef, applyExt, htok, href, hcom, htree, hproc]
  · intro e he
    simp only [List.mem_map] at he
    obtain ⟨q, _, rfl⟩ := he
    exact ⟨rfl, rfl⟩
  · simp [delete_files, commit_files, Host.getRef, Host.getCommit, Host.createTree,
      Host.createCommit, Host.updateRef, applyExt, Request.kind,
      htok, href, hcom, htree, hproc, hread]
  · simp [delete_files, Host.getRef, Host.getCommit, Host.createTree,
      Host.createCommit, Host.updateRef, applyExt, htok, href, hcom, htree, hproc]
  · intro p hp _
    refine ⟨{ commitSha := "commit-" ++ toString (host.freshCounter + 1),
              commitMessage := message,
              author := host.authorName, date := host.authorDate,
              filePaths := [p],
              treeSha := "tree-" ++ toString host.freshCounter }, ?_, rfl⟩
    simp [delete_files, processDeletePaths, deleteProcessPath, Host.getRef, Host.getCommit,
      Host.createTree, Host.createCommit, Host.updateRef, applyExt,
      htok, href, hcom, htree, hp]

/-- Witness for C8: deleting `ghost.txt`, a path absent from the demo base
tree, alongside the write path committing `a.txt`. -/
theorem delete_files_mirrors_write_protocol_witness :
    (delete_files envDemo hostDemo none ["ghost.txt"] "m").trace.map Request.kind =
      (commit_files envDemo fsDemo hostDemo none ["a.txt"] "m").trace.map Request.kind ∧
    (∃ pay, (delete_files envDemo hostDemo none ["ghost.txt"] "m").result = .ok pay ∧
      pay.filePaths = ["ghost.txt"]) := by
  have h := delete_files_mirrors_write_protocol envDemo fsDemo hostDemo
    ["a.txt"] ["ghost.txt"] "m" "tok" "base"
    { tree := "t0", parents := [], message := "init",
      authorName := "octocat", authorDate := "2024-01-01" }
    [("keep.txt", "k")]
    [{ path := "a.txt", mode := "100644", type := "blob",
       content := some "hello", sha := none }]
    ["ghost.txt"] rfl rfl rfl rfl rfl rfl
  exact ⟨h.2.2.1, h.2.2.2.2 "ghost.txt" (by decide) (by decide)⟩

/-- Claim C3 counterexample: `delete_files` does not strip exactly one
leading separator.  A path outside the cwd is rejected outright (no tree
entry is ever built from it), and a path under the cwd loses the whole cwd
prefix — the tree entry carries `docs/x.md`, not the one-separator-stripped
`repo/docs/x.md`. -/
theorem path_normalization_counterexample :
    (delete_files envDemo hostDemo none ["/etc/passwd"] "m").result =
      .error "Path /etc/passwd must be relative to repository root or within current working directory" ∧
    (delete_files envDemo hostDemo none ["/etc/passwd"] "m").trace = [] ∧
    (delete_files envDemo hostDemo none ["/repo/docs/x.md"] "m").trace =
      [Request.getRef "o" "r" "main",
       Request.getCommit "o" "r" "base",
       Request.createTree "o" "r" "t0" [deleteEntry "docs/x.md"],
       Request.createCommit "o" "r" "m" "tree-0" ["base"],
       Request.updateRef "o" "r" "main" "commit-1" false] ∧
    "docs/x.md" ≠ "/repo/docs/x.md".drop 1 :=
  ⟨rfl, rfl, rfl, by decide⟩

/-- Claim C3 (amended): in `commit_files` a requested path beginning with a
separator has exactly one leading separator stripped before use as a tree
entry path (and the affected paths of any successful run are exactly the
processed requested files); in `delete_files` a path beginning with a
separator instead has the whole cwd prefix and the following separator
stripped when it lies under the cwd, and otherwise the operation throws. -/
theorem path_normalization_amended (cwd p : String)
    (h : strStartsWith p "/" = true) :
    commitProcessPath p = p.drop 1 ∧
    (strStartsWith p cwd = true →
      deleteProcessPath cwd p = .ok (p.drop (cwd.length + 1))) ∧
    (strStartsWith p cwd = false →
      deleteProcessPath cwd p = .error ("Path " ++ p ++
        " must be relative to repository root or within current working directory")) ∧
    (∀ env fs host ext files message pay,
      (commit_files env fs host ext files message).result = .ok pay →
      pay.filePaths = files.map commitProcessPath) := by
  refine ⟨by simp [commitProcessPath, h], ?_, ?_,
    fun env fs host ext files message =>
      commit_files_paths_processed env fs host ext files message⟩
  · intro hc; simp [deleteProcessPath, h, hc]
  · intro hc; simp [deleteProcessPath, h, hc]

/-- Witness for the amended C3 at concrete paths under cwd `/repo`. -/
theorem path_normalization_amended_witness :
    commitProcessPath "/repo/docs/x.md" = "repo/docs/x.md" ∧
    deleteProcessPath "/repo" "/repo/docs/x.md" = .ok "docs/x.md" ∧
    deleteProcessPath "/repo" "/etc/passwd" =
      .error "Path /etc/passwd must be relative to repository root or within current working directory" := by
  have h1 := path_normalization_amended "/repo" "/repo/docs/x.md" (by decide)
  have h2 := path_normalization_amended "/repo" "/etc/passwd" (by decide)
  exact ⟨h1.1, h1.2.1 (by decide), h2.2.2.1 (by decide)⟩

/-- Claim C6: when the trigger phrase is absent, the pipeline terminates
successfully: the only effect is the skip log — no comment, no branch
action, no downstream step — and no final comment id is produced. -/
theorem trigger_absent_successful_noop (env : PrepareEnv) (tok : String)
    (ctx : GitHubContext)
    (h1 : env.setupGitHubToken = .ok tok)
    (h2 : env.parseGitHubContext = .ok ctx)
    (h3 : env.checkWritePermissions = .ok true)
    (h4 : env.checkTriggerAction = .ok false) :
    prepareRun env =
      { outcome := .success,
        actions := [.log "No trigger found, skipping remaining steps"],
        finalCommentId := none } := by
  simp [prepareRun, h1, h2, h3, h4]

/-- Concrete pipeline context for witnesses: issue number 1 of repo o/r. -/
def ctxIssueDemo : GitHubContext :=
  { repository := { owner := "o", repo := "r" }, entityNumber := 1, isPR := false }

/-- Concrete branch info for witnesses: a fresh claude branch for issue 1. -/
def branchInfoDemo : BranchInfo :=
  { defaultBranch := "main", currentBranch := "claude/issue-1",
    claudeBranch := some "claude/issue-1" }

/-- Oracle environment for witnesses in which every external call succeeds,
no open PR matches the branch, and the initial comment id is 10. -/
def envPipeDemo : PrepareEnv :=
  { setupGitHubToken := .ok "tok",
    parseGitHubContext := .ok ctxIssueDemo,
    checkWritePermissions := .ok true,
    checkTriggerAction := .ok true,
    checkHumanActor := .ok (),
    createInitialComment := .ok 10,
    fetchGitHubData := .ok (),
    setupBranch := .ok branchInfoDemo,
    pullsList := .ok [],
    createPRComment := fun _ => .ok 99,
    updateTrackingComment := .ok (),
    createPrompt := .ok (),
    prepareMcpConfig := .ok "cfg" }

/-- Witness for C6: the demo environment with the trigger oracle answering
false. -/
theorem trigger_absent_successful_noop_witness :
    prepareRun { envPipeDemo with checkTriggerAction := .ok false } =
      { outcome := .success,
        actions := [.log "No trigger found, skipping remaining steps"],
        finalCommentId := none } :=
  trigger_absent_successful_noop { envPipeDemo with checkTriggerAction := .ok false }
    "tok" ctxIssueDemo rfl rfl rfl rfl

/-- Claim C7: the write-permission gate is evaluated before the trigger
match — a denied permission is fatal (the catch block sets the failure and
exits non-zero, modelled as the `failure` outcome) even when the trigger
phrase is absent — and this is distinguishable from the successful no-op of
the trigger-absent case. -/
theorem permission_denied_fatal_before_trigger :
    (∀ env tok ctx, env.setupGitHubToken = .ok tok →
      env.parseGitHubContext = .ok ctx →
      env.checkWritePermissions = .ok false →
      env.checkTriggerAction = .ok false →
      (prepareRun env).outcome =
        .failure (failMsg "Actor does not have write permissions to the repository")) ∧
    (∀ env tok ctx, env.setupGitHubToken = .ok tok →
      env.parseGitHubContext = .ok ctx →
      env.checkWritePermissions = .ok true →
      env.checkTriggerAction = .ok false →
      (prepareRun env).outcome = .success) ∧
    (∀ msg, RunOutcome.failure msg ≠ RunOutcome.success) := by
  refine ⟨?_, ?_, ?_⟩
  · intro env tok ctx h1 h2 h3 h4
    simp [prepareRun, h1, h2, h3]
  · intro env tok ctx h1 h2 h3 h4
    simp [prepareRun, h1, h2, h3, h4]
  · intro msg h
    exact RunOutcome.noConfusion h

/-- Witness for C7: permission denied (trigger absent) fails, permission
granted (trigger absent) succeeds. -/
theorem permission_denied_fatal_before_trigger_witness :
    (prepareRun { envPipeDemo with
        checkWritePermissions := .ok false,
        checkTriggerAction := .ok false }).outcome =
      .failure (failMsg "Actor does not have write permissions to the repository") ∧
    (prepareRun { envPipeDemo with checkTriggerAction := .ok false }).outcome =
      .success :=
  ⟨permission_denied_fatal_before_trigger.1
      { envPipeDemo with
        checkWritePermissions := .ok false,
        checkTriggerAction := .ok false } "tok" ctxIssueDemo rfl rfl rfl rfl,
   permission_denied_fatal_before_trigger.2.1
      { envPipeDemo with checkTriggerAction := .ok false } "tok" ctxIssueDemo rfl rfl rfl rfl⟩

/-- Claim C5: Redirected and Linked are mutually exclusive.  (a) For an
issue event with a new branch and a non-empty open-PR query result, a new
comment is created on the discovered PR and becomes the authoritative
comment (different id), and the redirect step does not edit the original
comment.  (b) With no matching open PR, the original comment is edited in
place with the branch link and no second comment is created.  (c) For a
pull-request event (no claudeBranch), the initial comment receives no
further mutation. -/
theorem redirected_linked_mutually_exclusive :
    (∀ env tok ctx bi cb cid pr rest nid cfg,
      env.setupGitHubToken = .ok tok → env.parseGitHubContext = .ok ctx →
      env.checkWritePermissions = .ok true → env.checkTriggerAction = .ok true →
      env.checkHumanActor = .ok () → env.createInitialComment = .ok cid →
      env.fetchGitHubData = .ok () → env.setupBranch = .ok bi →
      ctx.isPR = false → bi.claudeBranch = some cb →
      env.pullsList = .ok (pr :: rest) →
      env.createPRComment pr.number = .ok nid → nid ≠ cid →
      env.createPrompt = .ok () → env.prepareMcpConfig = .ok cfg →
      (prepareRun env).outcome = .success ∧
      (prepareRun env).finalCommentId = some nid ∧
      (prepareRun env).finalCommentId ≠ some cid ∧
      PrepareAction.createdPRComment pr.number nid ∈ (prepareRun env).actions ∧
      (∀ b2, PrepareAction.editedComment cid b2 ∉ (prepareRun env).actions)) ∧
    (∀ env tok ctx bi cb cid cfg,
      env.setupGitHubToken = .ok tok → env.parseGitHubContext = .ok ctx →
      env.checkWritePermissions = .ok true → env.checkTriggerAction = .ok true →
      env.checkHumanActor = .ok () → env.createInitialComment = .ok cid →
      env.fetchGitHubData = .ok () → env.setupBranch = .ok bi →
      ctx.isPR = false → bi.claudeBranch = some cb →
      env.pullsList = .ok [] →
      env.updateTrackingComment = .ok () →
      env.createPrompt = .ok () → env.prepareMcpConfig = .ok cfg →
      (prepareRun env).outcome = .success ∧
      PrepareAction.editedComment cid cb ∈ (prepareRun env).actions ∧
      (∀ pn i, PrepareAction.createdPRComment pn i ∉ (prepareRun env).actions) ∧
      (prepareRun env).finalCommentId = some cid) ∧
    (∀ env tok ctx bi cid cfg,
      env.setupGitHubToken = .ok tok → env.parseGitHubContext = .ok ctx →
      env.checkWritePermissions = .ok true → env.checkTriggerAction = .ok true →
      env.checkHumanActor = .ok () → env.createInitialComment = .ok cid →
      env.fetchGitHubData = .ok () → env.setupBranch = .ok bi →
      ctx.isPR = true → bi.claudeBranch = none →
      env.createPrompt = .ok () → env.prepareMcpConfig = .ok cfg →
      (prepareRun env).outcome = .success ∧
      (∀ i b2, PrepareAction.editedComment i b2 ∉ (prepareRun env).actions) ∧
      (∀ pn i, PrepareAction.createdPRComment pn i ∉ (prepareRun env).actions) ∧
      (prepareRun env).finalCommentId = some cid) := by
  refine ⟨?_, ?_, ?_⟩
  · intro env tok ctx bi cb cid pr rest nid cfg
      h1 h2 h3 h4 h5 hic hfd hsb hpr hcb hpl hcc hne hcp hmc
    simp [prepareRun, redirectStep, updateStep,
      h1, h2, h3, h4, h5, hic, hfd, hsb, hpr, hcb, hpl, hcc, hne, hcp, hmc]
  · intro env tok ctx bi cb cid cfg h1 h2 h3 h4 h5 hic hfd hsb hpr hcb hpl hup hcp hmc
    simp [prepareRun, redirectStep, updateStep,
      h1, h2, h3, h4, h5, hic, hfd, hsb, hpr, hcb, hpl, hup, hcp, hmc]
  · intro env tok ctx bi cid cfg h1 h2 h3 h4 h5 hic hfd hsb hpr hcb hcp hmc
    simp [prepareRun, redirectStep, updateStep,
      h1, h2, h3, h4, h5, hic, hfd, hsb, hpr, hcb, hcp, hmc]

/-- Oracle environment for the Redirected case: an open PR number 5 matches
the branch and the PR comment is created with id 99. -/
def envRedirectDemo : PrepareEnv :=
  { envPipeDemo with pullsList := .ok [{ number := 5 }] }

/-- Witness for C5: all three cases at concrete environments. -/
theorem redirected_linked_mutually_exclusive_witness :
    ((prepareRun envRedirectDemo).finalCommentId = some 99 ∧
      PrepareAction.createdPRComment 5 99 ∈ (prepareRun envRedirectDemo).actions ∧
      (∀ b2, PrepareAction.editedComment 10 b2 ∉ (prepareRun envRedirectDemo).actions)) ∧
    (PrepareAction.editedComment 10 "claude/issue-1" ∈ (prepareRun envPipeDemo).actions ∧
      (∀ pn i, PrepareAction.createdPRComment pn i ∉ (prepareRun envPipeDemo).actions) ∧
      (prepareRun envPipeDemo).finalCommentId = some 10) := by
  have ha := redirected_linked_mutually_exclusive.1 envRedirectDemo "tok" ctxIssueDemo
    branchInfoDemo "claude/issue-1" 10 { number := 5 } [] 99 "cfg"
    rfl rfl rfl rfl rfl rfl rfl rfl rfl rfl rfl rfl (by decide) rfl rfl
  have hb := redirected_linked_mutually_exclusive.2.1 envPipeDemo "tok" ctxIssueDemo
    branchInfoDemo "claude/issue-1" 10 "cfg"
    rfl rfl rfl rfl rfl rfl rfl rfl rfl rfl rfl rfl rfl rfl
  exact ⟨⟨ha.2.1, ha.2.2.2.1, ha.2.2.2.2⟩, ⟨hb.2.1, hb.2.2.1, hb.2.2.2⟩⟩

/-- Oracle environment in which the PR lookup finds an open PR but creating
the new PR-scoped comment throws. -/
def envRedirectCreateFails : PrepareEnv :=
  { envPipeDemo with
    pullsList := .ok [{ number := 5 }],
    createPRComment := fun _ => .error "comment creation failed" }

/-- Claim C4 counterexample: when creating the new PR-scoped comment during
redirect fails, the invocation does NOT fail — the inner catch swallows the
throw, the pipeline falls back to the original comment id 10, edits it with
the branch link, and terminates successfully. -/
theorem redirect_creation_failure_swallowed : 
    (prepareRun envRedirectCreateFails).outcome = RunOutcome.success ∧
    (prepareRun envRedirectCreateFails).finalCommentId = some 10 ∧
    PrepareAction.editedComment 10 "claude/issue-1" ∈
      (prepareRun envRedirectCreateFails).actions := by
  decide

/-- Claim C4 (amended): a failure of the open-PR lookup is swallowed and the
pipeline continues on the non-redirect path; a failure of the initial
comment creation or of the original-comment edit is propagated as fatal;
but a failure while creating the new PR-scoped comment during redirect is
likewise swallowed — the pipeline falls back to the original comment
(editing it with the branch link) and the invocation succeeds. -/
theorem comment_failure_policy :
    (∀ env tok ctx bi cb cid e cfg,
      env.setupGitHubToken = .ok tok → env.parseGitHubContext = .ok ctx →
      env.checkWritePermissions = .ok true → env.checkTriggerAction = .ok true →
      env.checkHumanActor = .ok () → env.createInitialComment = .ok cid →
      env.fetchGitHubData = .ok () → env.setupBranch = .ok bi →
      ctx.isPR = false → bi.claudeBranch = some cb →
      env.pullsList = .error e →
      env.updateTrackingComment = .ok () →
      env.createPrompt = .ok () → env.prepareMcpConfig = .ok cfg →
      (prepareRun env).outcome = .success ∧
      (∀ pn i, PrepareAction.createdPRComment pn i ∉ (prepareRun env).actions) ∧
      (prepareRun env).finalCommentId = some cid) ∧
    (∀ env tok ctx e,
      env.setupGitHubToken = .ok tok → env.parseGitHubContext = .ok ctx →
      env.checkWritePermissions = .ok true → env.checkTriggerAction = .ok true →
      env.checkHumanActor = .ok () → env.createInitialComment = .error e →
      (prepareRun env).outcome = .failure (failMsg e)) ∧
    (∀ env tok ctx bi cb cid e,
      env.setupGitHubToken = .ok tok → env.parseGitHubContext = .ok ctx →
      env.checkWritePermissions = .ok true → env.checkTriggerAction = .ok true →
      env.checkHumanActor = .ok () → env.createInitialComment = .ok cid →
      env.fetchGitHubData = .ok () → env.setupBranch = .ok bi →
      ctx.isPR = false → bi.claudeBranch = some cb →
      env.pullsList = .ok [] →
      env.updateTrackingComment = .error e →
      (prepareRun env).outcome = .failure (failMsg e)) ∧
    (∀ env tok ctx bi cb cid pr rest e cfg,
      env.setupGitHubToken = .ok tok → env.parseGitHubContext = .ok ctx →
      env.checkWritePermissions = .ok true → env.checkTriggerAction = .ok true →
      env.checkHumanActor = .ok () → env.createInitialComment = .ok cid →
      env.fetchGitHubData = .ok () → env.setupBranch = .ok bi →
      ctx.isPR = false → bi.claudeBranch = some cb →
      env.pullsList = .ok (pr :: rest) →
      env.createPRComment pr.number = .error e →
      env.updateTrackingComment = .ok () →
      env.createPrompt = .ok () → env.prepareMcpConfig = .ok cfg →
      (prepareRun env).outcome = .success ∧
      PrepareAction.editedComment cid cb ∈ (prepareRun env).actions ∧
      (prepareRun env).finalCommentId = some cid) := by
  refine ⟨?_, ?_, ?_, ?_⟩
  · intro env tok ctx bi cb cid e cfg h1 h2 h3 h4 h5 hic hfd hsb hpr hcb hpl hup hcp hmc
    simp [prepareRun, redirectStep, updateStep,
      h1, h2, h3, h4, h5, hic, hfd, hsb, hpr, hcb, hpl, hup, hcp, hmc]
  · intro env tok ctx e h1 h2 h3 h4 h5 hic
    simp [prepareRun, h1, h2, h3, h4, h5, hic]
  · intro env tok ctx bi cb cid e h1 h2 h3 h4 h5 hic hfd hsb hpr hcb hpl hup
    simp [prepareRun, redirectStep, updateStep,
      h1, h2, h3, h4, h5, hic, hfd, hsb, hpr, hcb, hpl, hup]
  · intro env tok ctx bi cb cid pr rest e cfg
      h1 h2 h3 h4 h5 hic hfd hsb hpr hcb hpl hcc hup hcp hmc
    simp [prepareRun, redirectStep, updateStep,
      h1, h2, h3, h4, h5, hic, hfd, hsb, hpr, hcb, hpl, hcc, hup, hcp, hmc]

/-- Witness for the amended C4: the lookup-failure, fatal-creation,
fatal-edit and swallowed-redirect-creation cases at concrete
environments. -/
theorem comment_failure_policy_witness :
    ((prepareRun { envPipeDemo with pullsList := .error "boom" }).outcome =
      RunOutcome.success) ∧
    ((prepareRun { envPipeDemo with createInitialComment := .error "nope" }).outcome =
      .failure (failMsg "nope")) ∧
    ((prepareRun { envPipeDemo with updateTrackingComment := .error "edit failed" }).outcome =
      .failure (failMsg "edit failed")) ∧
    ((prepareRun envRedirectCreateFails).outcome = RunOutcome.success ∧
      PrepareAction.editedComment 10 "claude/issue-1" ∈
        (prepareRun envRedirectCreateFails).actions) := by
  have h1 := comment_failure_policy.1 { envPipeDemo with pullsList := .error "boom" }
    "tok" ctxIssueDemo branchInfoDemo "claude/issue-1" 10 "boom" "cfg"
    rfl rfl rfl rfl rfl rfl rfl rfl rfl rfl rfl rfl rfl rfl
  have h2 := comment_failure_policy.2.1
    { envPipeDemo with createInitialComment := .error "nope" }
    "tok" ctxIssueDemo "nope" rfl rfl rfl rfl rfl rfl
  have h3 := comment_failure_policy.2.2.1
    { envPipeDemo with updateTrackingComment := .error "edit failed" }
    "tok" ctxIssueDemo branchInfoDemo "claude/issue-1" 10 "edit failed"
    rfl rfl rfl rfl rfl rfl rfl rfl rfl rfl rfl rfl
  have h4 := comment_failure_policy.2.2.2 envRedirectCreateFails
    "tok" ctxIssueDemo branchInfoDemo "claude/issue-1" 10 { number := 5 } []
    "comment creation failed" "cfg"
    rfl rfl rfl rfl rfl rfl rfl rfl rfl rfl rfl rfl rfl rfl rfl
  exact ⟨h1.1, h2, h3, h4.1, h4.2.1⟩
